import Mathlib

/-!
Verification of the spacegame orbital core against its specification.

The development shallowly embeds two components of the repository:

* the Keplerian orbit propagator (`PositionAt` in the Go data package, and
  the simulation-clock variant used by `updateOrbits` in the TypeScript
  renderer), modelled over the real numbers with `Real.sin`, `Real.cos`,
  `Real.sqrt` and `Complex.arg` (for `atan2`);

* the one-shot hierarchy builder (`NewSystem` on `*Body`), modelled with
  value semantics: the in-place pointer mutations of the Go code are
  replayed as functional record updates applied in the same order, and the
  satellite lists of the resulting nodes store the names of the (final)
  member records.  Go's `panic` and the nil-pointer dereference that can
  occur when no satellite ever improves on the initial `barycenter = 0.0`
  are modelled with `Except.error`.
-/

noncomputable section

namespace SpaceGame

/-- Orbital elements, mirroring the Go struct `orbit`
(fields `a`, `e`, `pomega`, `m0`, `n`). -/
structure OrbitEl where
  a : ℝ
  e : ℝ
  pomega : ℝ
  m0 : ℝ
  n : ℝ

/-- The Julian-Day reference epoch, Go constant `J2000 = 2451545.0`. -/
def J2000 : ℝ := 2451545.0

/-- The fixed-point iteration for Kepler's equation used by both call
sites: `keplerE e M k` is the `k`-th iterate of `E ↦ M + e·sin E`
starting from `E₀ = M` (the Go/TS loops run it for `k = 10`). -/
def keplerE (e M : ℝ) : ℕ → ℝ
  | 0 => M
  | k + 1 => M + e * Real.sin (keplerE e M k)

/-- Two-argument arctangent `atan2 y x`, modelling Go's `math.Atan2` /
JS `Math.atan2`: the argument (angle) of the complex number `x + y·i`. -/
def atan2 (y x : ℝ) : ℝ := Complex.arg ⟨x, y⟩

/-- Shared solver core of the two propagators: solve Kepler's equation by
10 fixed iterations, convert to polar form with the half-angle `atan2`
identity, and return the Cartesian point.  `PositionAt` runs it on
`(a, M)`; the renderer's `updateOrbits` body runs it on `(-a, -M)`. -/
def solveCore (a e pom M : ℝ) : ℝ × ℝ :=
  let E := keplerE e M 10
  let y := Real.sqrt (1 - e) * Real.cos (E / 2)
  let x := Real.sqrt (1 + e) * Real.sin (E / 2)
  let r := a * (1 - e * Real.cos E)
  let θ := pom + 2 * atan2 y x
  (r * Real.cos θ, r * Real.sin θ)

/-- `PositionAt`, the physical-time propagator from the Go data package:
guard `a ≤ 0 → (0,0)`, then mean anomaly `M = m0 + (julianDay - J2000)·n`,
10 Kepler iterations, half-angle conversion and Cartesian output. -/
def PositionAt (o : OrbitEl) (julianDay : ℝ) : ℝ × ℝ :=
  if o.a ≤ 0 then (0, 0)
  else
    let M := o.m0 + (julianDay - J2000) * o.n
    let E := keplerE o.e M 10
    let y := Real.sqrt (1 - o.e) * Real.cos (E / 2)
    let x := Real.sqrt (1 + o.e) * Real.sin (E / 2)
    let r := o.a * (1 - o.e * Real.cos E)
    let θ := o.pomega + 2 * atan2 y x
    (r * Real.cos θ, r * Real.sin θ)

/-- Per-object position computation of the renderer's `updateOrbits`
(simulation-clock propagator): `M = -(M0 + t·n)`, the same 10-iteration
Kepler solve and half-angle conversion, but radius `r = -a·(1 - e·cos E)`
and no degenerate-orbit guard. -/
def updateOrbitPos (o : OrbitEl) (t : ℝ) : ℝ × ℝ :=
  let M := -(o.m0 + t * o.n)
  let E := keplerE o.e M 10
  let th := o.pomega +
    2 * atan2 (Real.sqrt (1 - o.e) * Real.cos (E / 2))
              (Real.sqrt (1 + o.e) * Real.sin (E / 2))
  let r := (-o.a) * (1 - o.e * Real.cos E)
  (r * Real.cos th, r * Real.sin th)

/-- The physical propagator is the solver core applied to `+a` and the
physical mean anomaly, whenever the degenerate-orbit guard does not fire. -/
theorem positionAt_eq_solveCore (o : OrbitEl) (t : ℝ) (ha : ¬ o.a ≤ 0) :
    PositionAt o t = solveCore o.a o.e o.pomega (o.m0 + (t - J2000) * o.n) := by
  rw [PositionAt, if_neg ha]; rfl

/-- The simulation-clock propagator is the solver core applied to `-a`
and the negated mean anomaly. -/
theorem updateOrbitPos_eq_solveCore (o : OrbitEl) (t : ℝ) :
    updateOrbitPos o t = solveCore (-o.a) o.e o.pomega (-(o.m0 + t * o.n)) := rfl

/-- `keplerE` agrees with `Function.iterate` of the fixed-point map. -/
theorem keplerE_eq_iterate (e M : ℝ) (k : ℕ) :
    keplerE e M k = (fun E => M + e * Real.sin E)^[k] M := by
  induction k with
  | zero => rfl
  | succ k ih => rw [keplerE, ih, Function.iterate_succ_apply']

/-- Oddness of the Kepler iterates in the mean anomaly. -/
theorem keplerE_neg (e M : ℝ) (k : ℕ) :
    keplerE e (-M) k = -keplerE e M k := by
  induction k with
  | zero => rfl
  | succ k ih => rw [keplerE, keplerE, ih, Real.sin_neg]; ring

/-- With zero eccentricity every Kepler iterate is the mean anomaly. -/
theorem keplerE_zero (M : ℝ) (k : ℕ) : keplerE 0 M k = M := by
  induction k with
  | zero => rfl
  | succ k ih => rw [keplerE, ih]; ring

theorem mk_ne_zero_of_sq (x y : ℝ) (h : x ^ 2 + y ^ 2 ≠ 0) : (⟨x, y⟩ : ℂ) ≠ 0 := by
  intro h0
  have hx : x = 0 := congrArg Complex.re h0
  have hy : y = 0 := congrArg Complex.im h0
  rw [hx, hy] at h
  simp at h

theorem abs_mk_sq (x y : ℝ) : Complex.abs ⟨x, y⟩ ^ 2 = x ^ 2 + y ^ 2 := by
  rw [Complex.sq_abs, Complex.normSq_mk]; ring

/-- Double angle of `atan2` in rational form: the cosine. -/
theorem cos_two_atan2 (y x : ℝ) (h : x ^ 2 + y ^ 2 ≠ 0) :
    Real.cos (2 * atan2 y x) = (x ^ 2 - y ^ 2) / (x ^ 2 + y ^ 2) := by
  have hz : (⟨x, y⟩ : ℂ) ≠ 0 := mk_ne_zero_of_sq x y h
  have hA : Complex.abs ⟨x, y⟩ ^ 2 = x ^ 2 + y ^ 2 := abs_mk_sq x y
  have hA0 : Complex.abs (⟨x, y⟩ : ℂ) ≠ 0 := Complex.abs.ne_zero hz
  rw [atan2, Real.cos_two_mul, Complex.cos_arg hz]
  have hre : (⟨x, y⟩ : ℂ).re = x := rfl
  rw [hre, div_pow, hA]
  field_simp
  ring

/-- Double angle of `atan2` in rational form: the sine. -/
theorem sin_two_atan2 (y x : ℝ) (h : x ^ 2 + y ^ 2 ≠ 0) :
    Real.sin (2 * atan2 y x) = 2 * x * y / (x ^ 2 + y ^ 2) := by
  have hz : (⟨x, y⟩ : ℂ) ≠ 0 := mk_ne_zero_of_sq x y h
  have hA : Complex.abs ⟨x, y⟩ ^ 2 = x ^ 2 + y ^ 2 := abs_mk_sq x y
  have hA0 : Complex.abs (⟨x, y⟩ : ℂ) ≠ 0 := Complex.abs.ne_zero hz
  rw [atan2, Real.sin_two_mul, Complex.sin_arg, Complex.cos_arg hz]
  have hre : (⟨x, y⟩ : ℂ).re = x := rfl
  have him : (⟨x, y⟩ : ℂ).im = y := rfl
  rw [hre, him]
  have h2 : 2 * (y / Complex.abs ⟨x, y⟩) * (x / Complex.abs ⟨x, y⟩)
      = 2 * (y * x) / (Complex.abs ⟨x, y⟩ ^ 2) := by ring
  rw [h2, hA]
  ring

/-- Square of the half-angle vector: `x² + y² = 1 - e·cos E` for the
`atan2` arguments built inside the solver core. -/
theorem half_angle_sq (e E : ℝ) (he0 : 0 ≤ e) (he1 : e ≤ 1) :
    (Real.sqrt (1 + e) * Real.sin (E / 2)) ^ 2
      + (Real.sqrt (1 - e) * Real.cos (E / 2)) ^ 2 = 1 - e * Real.cos E := by
  have h1 : (0:ℝ) ≤ 1 + e := by linarith
  have h2 : (0:ℝ) ≤ 1 - e := by linarith
  have hcosE : Real.cos E = 2 * Real.cos (E / 2) ^ 2 - 1 := by
    have h3 := Real.cos_two_mul (E / 2)
    rwa [show 2 * (E / 2) = E by ring] at h3
  rw [mul_pow, mul_pow, Real.sq_sqrt h1, Real.sq_sqrt h2, Real.sin_sq, hcosE]
  ring

/-- C4 (amended): the simulation-clock computation (`-a`, `-M`) is the
reflection of the physical computation (`+a`, `+M`) across the line
through the origin at angle `pomega + π/2`; the two points are NOT equal
in general. -/
theorem c4_simClock_is_reflection (a e pom M : ℝ) (ha : 0 < a) (he0 : 0 ≤ e)
    (he1 : e < 1) :
    solveCore (-a) e pom (-M)
      = (-(Real.cos (2 * pom) * (solveCore a e pom M).1
            + Real.sin (2 * pom) * (solveCore a e pom M).2),
         -(Real.sin (2 * pom) * (solveCore a e pom M).1
            - Real.cos (2 * pom) * (solveCore a e pom M).2)) := by
  have haux := ha
  clear haux
  simp only [solveCore]
  rw [keplerE_neg, neg_div, Real.cos_neg, Real.sin_neg, Real.cos_neg, mul_neg]
  have hS : (Real.sqrt (1 + e) * Real.sin (keplerE e M 10 / 2)) ^ 2
      + (Real.sqrt (1 - e) * Real.cos (keplerE e M 10 / 2)) ^ 2
      = 1 - e * Real.cos (keplerE e M 10) :=
    half_angle_sq e (keplerE e M 10) he0 (le_of_lt he1)
  set E := keplerE e M 10 with hE
  set x := Real.sqrt (1 + e) * Real.sin (E / 2) with hx
  set y := Real.sqrt (1 - e) * Real.cos (E / 2) with hy
  have hSpos : 0 < x ^ 2 + y ^ 2 := by
    rw [hS]
    nlinarith [Real.cos_le_one E, Real.neg_one_le_cos E]
  have hSne : x ^ 2 + y ^ 2 ≠ 0 := ne_of_gt hSpos
  have hSne2 : (-x) ^ 2 + y ^ 2 ≠ 0 := by rw [neg_sq]; exact hSne
  rw [Real.cos_add, Real.sin_add, Real.cos_add, Real.sin_add,
    cos_two_atan2 y x hSne, sin_two_atan2 y x hSne,
    cos_two_atan2 y (-x) hSne2, sin_two_atan2 y (-x) hSne2,
    Real.cos_two_mul, Real.sin_two_mul, Prod.mk.injEq]
  constructor
  · linear_combination (2 * (a * (1 - e * Real.cos E)) * Real.cos pom *
      ((x ^ 2 - y ^ 2) / (x ^ 2 + y ^ 2))) * Real.sin_sq_add_cos_sq pom
  · linear_combination (-(2:ℝ) * (a * (1 - e * Real.cos E)) * Real.cos pom *
      (2 * x * y / (x ^ 2 + y ^ 2))) * Real.sin_sq_add_cos_sq pom

theorem atan2_zero_one : atan2 0 1 = 0 := by
  have h : (⟨1, 0⟩ : ℂ) = 1 := by norm_num [Complex.ext_iff]
  rw [atan2, h, Complex.arg_one]

theorem atan2_zero_neg_one : atan2 0 (-1) = Real.pi := by
  have h : (⟨-1, 0⟩ : ℂ) = -1 := by norm_num [Complex.ext_iff]
  rw [atan2, h, Complex.arg_neg_one]

/-- Concrete evaluation of the physical solver core at apoapsis of a
circular orbit. -/
theorem solveCore_phys_pi : solveCore 1 0 0 Real.pi = (1, 0) := by
  simp only [solveCore]
  rw [keplerE_zero]
  norm_num [Real.cos_pi_div_two, Real.sin_pi_div_two, Real.sqrt_one,
    atan2_zero_one]

/-- Concrete evaluation of the simulation-clock solver core at the
matching input. -/
theorem solveCore_sim_pi : solveCore (-1) 0 0 (-Real.pi) = (-1, 0) := by
  simp only [solveCore]
  rw [keplerE_zero]
  norm_num [neg_div, Real.cos_neg, Real.sin_neg, Real.cos_pi_div_two,
    Real.sin_pi_div_two, Real.sqrt_one, atan2_zero_neg_one, Real.cos_two_pi,
    Real.sin_two_pi]

/-- C4 counterexample: at `a = 1`, `e = 0`, `pomega = 0`, `M = π`
(within the claimed domain `a > 0`, `0 ≤ e < 1`) the physical propagator
core yields `(1, 0)` while the simulation-clock core (`-M`, `-r`) yields
`(-1, 0)`: the two call sites do NOT produce the same Cartesian point. -/
theorem c4_counterexample :
    (0:ℝ) < 1 ∧ (0:ℝ) ≤ 0 ∧ (0:ℝ) < 1 ∧
      solveCore 1 0 0 Real.pi ≠ solveCore (-1) 0 0 (-Real.pi) := by
  refine ⟨by norm_num, by norm_num, by norm_num, ?_⟩
  rw [solveCore_phys_pi, solveCore_sim_pi]
  norm_num [Prod.ext_iff]

/-- C4 witness: the reflection relation instantiated at
`a = 1`, `e = 0`, `pomega = 0`, `M = π`. -/
theorem c4_witness :
    (0:ℝ) < 1 ∧ (0:ℝ) ≤ 0 ∧ (0:ℝ) < 1 ∧
      solveCore (-1) 0 0 (-Real.pi)
        = (-(Real.cos (2 * 0) * (solveCore 1 0 0 Real.pi).1
              + Real.sin (2 * 0) * (solveCore 1 0 0 Real.pi).2),
           -(Real.sin (2 * 0) * (solveCore 1 0 0 Real.pi).1
              - Real.cos (2 * 0) * (solveCore 1 0 0 Real.pi).2)) :=
  ⟨by norm_num, by norm_num, by norm_num,
    c4_simClock_is_reflection 1 0 0 Real.pi (by norm_num) (by norm_num)
      (by norm_num)⟩

/-- C1: for every orbit with `a > 0` and every time `t`, `PositionAt`
computes exactly `M = m0 + (t - 2451545.0)·n`, then `E` as the 10th
iterate of `E' ↦ M + e·sin E'` seeded at `M`, then
`θ = pomega + 2·atan2(√(1-e)·cos(E/2), √(1+e)·sin(E/2))`,
`r = a·(1 - e·cos E)`, and returns `(r·cos θ, r·sin θ)`. -/
theorem c1_positionAt_formula (o : OrbitEl) (t : ℝ) (ha : 0 < o.a) :
    PositionAt o t =
      let M := o.m0 + (t - 2451545.0) * o.n
      let E := (fun x => M + o.e * Real.sin x)^[10] M
      let θ := o.pomega + 2 * atan2 (Real.sqrt (1 - o.e) * Real.cos (E / 2))
        (Real.sqrt (1 + o.e) * Real.sin (E / 2))
      let r := o.a * (1 - o.e * Real.cos E)
      (r * Real.cos θ, r * Real.sin θ) := by
  rw [PositionAt, if_neg (not_le.mpr ha)]
  simp only [← keplerE_eq_iterate]
  rfl

/-- C1 witness: the formula instantiated on a concrete circular orbit. -/
theorem c1_witness :
    (0:ℝ) < 1 ∧
      PositionAt ⟨1, 0, 0, 0, 0⟩ 0 =
        (let M := (0:ℝ) + (0 - 2451545.0) * 0
         let E := (fun x => M + 0 * Real.sin x)^[10] M
         let θ := (0:ℝ) + 2 * atan2 (Real.sqrt (1 - 0) * Real.cos (E / 2))
           (Real.sqrt (1 + 0) * Real.sin (E / 2))
         let r := (1:ℝ) * (1 - 0 * Real.cos E)
         (r * Real.cos θ, r * Real.sin θ)) :=
  ⟨by norm_num, c1_positionAt_formula ⟨1, 0, 0, 0, 0⟩ 0 (by norm_num)⟩

/-- C5: for every orbit with `a ≤ 0` and every `t`, `PositionAt` returns
exactly `(0, 0)`. -/
theorem c5_degenerate_orbit (o : OrbitEl) (t : ℝ) (h : o.a ≤ 0) :
    PositionAt o t = (0, 0) := by
  rw [PositionAt, if_pos h]

/-- C5 witness: a degenerate orbit with `a = 0` and arbitrary other
elements yields the origin. -/
theorem c5_witness :
    (0:ℝ) ≤ 0 ∧ PositionAt ⟨0, 5, 7, 11, 13⟩ 42 = (0, 0) :=
  ⟨by norm_num, c5_degenerate_orbit ⟨0, 5, 7, 11, 13⟩ 42 (by norm_num)⟩


/-! ## Hierarchy builder (`NewSystem` in the Go data package) -/

/-- Snapshot of an orbitable node (Go struct `orbitable`: embedded
`orbiter`/`orbit` plus `satellites`, `radius`, `mass`, `soi`).  The
`parent` pointer is modelled by the parent's name, the `satellites`
slice by the list of member names (`none` models Go's nil slice). -/
structure Obody where
  name : String
  orbit : OrbitEl
  radius : ℝ
  mass : ℝ
  soi : ℝ
  parent : Option String
  satellites : Option (List String)

/-- Result of a `NewSystem` call: the final state of the central body,
the final states of the satellites in sorted order, and the synthetic
barycenter when one was created (it is then the returned root). -/
structure BuildResult where
  central : Obody
  sats : List Obody
  bary : Option Obody

/-- The root returned by `NewSystem`: the barycenter when present,
otherwise the central body. -/
def BuildResult.root (r : BuildResult) : Obody := r.bary.getD r.central

/-- Comparison used by `sort.Sort(byA(satellites))`: order by semi-major
axis. -/
def leA (u v : Obody) : Prop := u.orbit.a ≤ v.orbit.a

instance : DecidableRel leA := fun u v =>
  inferInstanceAs (Decidable (u.orbit.a ≤ v.orbit.a))

instance : IsTotal Obody leA := ⟨fun u v => le_total u.orbit.a v.orbit.a⟩

instance : IsTrans Obody leA := ⟨fun _ _ _ h1 h2 => le_trans h1 h2⟩

/-- The in-place `sort.Sort(byA(satellites))`: the satellite list sorted
ascending by `a`. -/
def sortSats (sats : List Obody) : List Obody := List.insertionSort leA sats

/-- First loop of `NewSystem`: set the satellite's provisional parent and
its sphere of influence `soi = a · (mass/centralMass)^0.4`. -/
def updSat (c b : Obody) : Obody :=
  { b with parent := some c.name,
           soi := b.orbit.a * (b.mass / c.mass) ^ (0.4:ℝ) }

/-- The sorted satellite list after the first loop of `NewSystem`. -/
def updSats (c : Obody) (sats : List Obody) : List Obody :=
  (sortSats sats).map (updSat c)

/-- Two-body barycenter offset `r = a / (1 + centralMass/mass)` computed
for each satellite in the first loop. -/
def offsetR (c b : Obody) : ℝ := b.orbit.a / (1 + c.mass / b.mass)

/-- One step of the running-maximum tracking of `barycenter`/`baryBody`
(`if r > barycenter`, strict comparison, initial value `0`/nil). -/
def domStep (c : Obody) (acc : ℝ × Option (ℕ × Obody)) (p : ℕ × Obody) :
    ℝ × Option (ℕ × Obody) :=
  if acc.1 < offsetR c p.2 then (offsetR c p.2, some p) else acc

/-- The `barycenter`/`baryBody` fold over the (indexed) satellite list. -/
def domFold (c : Obody) (l : List Obody) : ℝ × Option (ℕ × Obody) :=
  l.enum.foldl (domStep c) (0, none)

/-- Final value of the `barycenter` variable (the tracked maximum
barycenter offset, initialised to `0`). -/
def maxROf (c : Obody) (sats : List Obody) : ℝ :=
  (domFold c (updSats c sats)).1

/-- Final value of the `baryBody` pointer: the index and (post first
loop) record of the dominant satellite, or `none` when no satellite ever
exceeded the initial `0`. -/
def domOf (c : Obody) (sats : List Obody) : Option (ℕ × Obody) :=
  (domFold c (updSats c sats)).2

/-- Name given to the barycenter:
`fmt.Sprintf("%v-%v Barycenter", centralBody.name, baryBody.name)`. -/
def bcNameOf (c db : Obody) : String := c.name ++ "-" ++ db.name ++ " Barycenter"

/-- Partition test of the second loop: `body.a < baryBody.a - baryBody.soi`
(inner satellites keep orbiting the central body). -/
def innerB (db b : Obody) : Bool := decide (b.orbit.a < db.orbit.a - db.soi)

/-- Final state of one satellite in the barycenter case: outer satellites
are re-parented onto the barycenter, and the dominant satellite (tracked
by pointer, here by index `di`) gets `a -= barycenter`. -/
def finSat (mR : ℝ) (bcN : String) (db : Obody) (di : ℕ) (p : ℕ × Obody) :
    Obody :=
  let b := if innerB db p.2 then p.2 else { p.2 with parent := some bcN }
  if p.1 = di then { b with orbit := { b.orbit with a := b.orbit.a - mR } }
  else b

/-- Final states of all satellites in the barycenter case, in sorted
order. -/
def finSats (c : Obody) (sats : List Obody) (di : ℕ) (db : Obody) :
    List Obody :=
  (updSats c sats).enum.map (finSat (maxROf c sats) (bcNameOf c db) db di)

/-- Final records of the inner satellites (the central body's new
satellite list). -/
def innerFinal (c : Obody) (sats : List Obody) (di : ℕ) (db : Obody) :
    List Obody :=
  ((updSats c sats).enum.filter (fun p => innerB db p.2)).map
    (finSat (maxROf c sats) (bcNameOf c db) db di)

/-- Final records of the outer satellites (the barycenter's satellite
list after the central body). -/
def outerFinal (c : Obody) (sats : List Obody) (di : ℕ) (db : Obody) :
    List Obody :=
  ((updSats c sats).enum.filter (fun p => ! innerB db p.2)).map
    (finSat (maxROf c sats) (bcNameOf c db) db di)

/-- Final state of the central body in the barycenter case: `soi` shrunk
to `baryBody.a - baryBody.soi`, satellites replaced by the inner list,
orbit replaced by the dominant satellite's original orbit with
`a := barycenter` and `m0 += π`.  Its `parent` field is NOT touched by
the Go code. -/
def centralFinalBary (c : Obody) (sats : List Obody) (di : ℕ) (db : Obody) :
    Obody :=
  { c with soi := db.orbit.a - db.soi,
           satellites := some ((innerFinal c sats di db).map (fun b => b.name)),
           orbit := { db.orbit with a := maxROf c sats,
                                    m0 := db.orbit.m0 + Real.pi } }

/-- The synthetic barycenter node: satellites are the central body
followed by the outer satellites, orbit is the central body's original
orbit, radius is the tracked maximum offset, mass the sum of the two
masses, `soi = -1`; its `parent` is never assigned (Go zero value nil). -/
def bcOf (c : Obody) (sats : List Obody) (di : ℕ) (db : Obody) : Obody :=
  { name := bcNameOf c db,
    orbit := c.orbit,
    radius := maxROf c sats,
    mass := c.mass + db.mass,
    soi := -1,
    parent := none,
    satellites := some (c.name :: (outerFinal c sats di db).map (fun b => b.name)) }

/-- Final state of the central body in the no-barycenter case: `soi = -1`
and the sorted satellite list attached. -/
def noBaryCentral (c : Obody) (sats : List Obody) : Obody :=
  { c with soi := -1,
           satellites := some ((updSats c sats).map (fun b => b.name)) }

/-- `NewSystem`, the hierarchy builder (`func (centralBody *Body)
NewSystem(satellites []Orbitable) System`): panic when the central body's
satellites are already set; otherwise sort, run the SOI/barycenter loop,
and either keep the central body as root or insert a barycenter.  The nil
`baryBody` dereference that Go would hit when the barycenter branch is
taken with no tracked satellite is modelled as an error as well. -/
def NewSystem (c : Obody) (sats : List Obody) : Except String BuildResult :=
  match c.satellites with
  | some _ => .error "Satellites already set"
  | none =>
    if maxROf c sats < 0.5 * c.radius then
      .ok ⟨noBaryCentral c sats, updSats c sats, none⟩
    else
      match domOf c sats with
      | none => .error "invalid memory address or nil pointer dereference"
      | some (di, db) =>
        .ok ⟨centralFinalBary c sats di db, finSats c sats di db,
             some (bcOf c sats di db)⟩


/-! ### Supporting lemmas about the builder -/

theorem foldl_domStep_lt (c : Obody) (bnd : ℝ) :
    ∀ (L : List (ℕ × Obody)) (acc : ℝ × Option (ℕ × Obody)),
      acc.1 < bnd → (∀ p ∈ L, offsetR c p.2 < bnd) →
      (L.foldl (domStep c) acc).1 < bnd := by
  intro L
  induction L with
  | nil => intro acc h _; simpa using h
  | cons p L ih =>
    intro acc hacc hall
    rw [List.foldl_cons]
    apply ih
    · rw [domStep]
      split
      · exact hall p (List.mem_cons_self p L)
      · exact hacc
    · intro q hq
      exact hall q (List.mem_cons_of_mem p hq)

theorem foldl_domStep_inv (c : Obody) :
    ∀ (L : List (ℕ × Obody)) (acc : ℝ × Option (ℕ × Obody)),
      0 ≤ acc.1 →
      (∀ q, acc.2 = some q → acc.1 = offsetR c q.2 ∧ 0 < acc.1) →
      0 ≤ (L.foldl (domStep c) acc).1 ∧
        ∀ q, (L.foldl (domStep c) acc).2 = some q →
          (L.foldl (domStep c) acc).1 = offsetR c q.2 ∧
            0 < (L.foldl (domStep c) acc).1 ∧ (acc.2 = some q ∨ q ∈ L) := by
  intro L
  induction L with
  | nil =>
    intro acc h0 hq
    refine ⟨h0, fun q hsome => ?_⟩
    rcases hq q hsome with ⟨h1, h2⟩
    exact ⟨h1, h2, Or.inl hsome⟩
  | cons p L ih =>
    intro acc h0 hq
    rw [List.foldl_cons]
    have step0 : 0 ≤ (domStep c acc p).1 := by
      rw [domStep]
      split
      · next hlt => dsimp only; linarith
      · exact h0
    have stepq : ∀ q, (domStep c acc p).2 = some q →
        (domStep c acc p).1 = offsetR c q.2 ∧ 0 < (domStep c acc p).1 := by
      intro q hsome
      by_cases hc : acc.1 < offsetR c p.2
      · rw [domStep, if_pos hc] at hsome ⊢
        have hpq : p = q := by simpa using hsome
        subst hpq
        exact ⟨rfl, lt_of_le_of_lt h0 hc⟩
      · rw [domStep, if_neg hc] at hsome ⊢
        exact hq q hsome
    obtain ⟨ra, rq⟩ := ih (domStep c acc p) step0 stepq
    refine ⟨ra, fun q hsome => ?_⟩
    obtain ⟨e1, e2, e3⟩ := rq q hsome
    refine ⟨e1, e2, ?_⟩
    rcases e3 with h | h
    · by_cases hc : acc.1 < offsetR c p.2
      · rw [domStep, if_pos hc] at h
        have hpq : p = q := by simpa using h
        exact Or.inr (hpq ▸ List.mem_cons_self p L)
      · rw [domStep, if_neg hc] at h
        exact Or.inl h
    · exact Or.inr (List.mem_cons_of_mem p h)

theorem maxROf_nonneg (c : Obody) (sats : List Obody) : 0 ≤ maxROf c sats :=
  (foldl_domStep_inv c (updSats c sats).enum (0, none) le_rfl
    (fun q hq => by simp at hq)).1

theorem domOf_spec (c : Obody) (sats : List Obody) (q : ℕ × Obody)
    (h : domOf c sats = some q) :
    maxROf c sats = offsetR c q.2 ∧ 0 < maxROf c sats ∧
      q ∈ (updSats c sats).enum := by
  have hinv := (foldl_domStep_inv c (updSats c sats).enum (0, none) le_rfl
    (fun q hq => by simp at hq)).2 q h
  rcases hinv with ⟨h1, h2, h3⟩
  refine ⟨h1, h2, ?_⟩
  rcases h3 with h | h
  · simp at h
  · exact h

theorem maxROf_lt_of_forall (c : Obody) (sats : List Obody) (bnd : ℝ)
    (hbnd : 0 < bnd) (hall : ∀ b ∈ updSats c sats, offsetR c b < bnd) :
    maxROf c sats < bnd := by
  apply foldl_domStep_lt c bnd (updSats c sats).enum (0, none) hbnd
  intro p hp
  have hmem := (List.mem_enumFrom hp).2.2
  apply hall
  simp only [Nat.sub_zero] at hmem
  rw [hmem]
  apply List.getElem_mem

theorem enum_mem_get {α : Type} (l : List α) (p : ℕ × α) (h : p ∈ l.enum) :
    ∃ hlt : p.1 < l.length, p.2 = l.get ⟨p.1, hlt⟩ := by
  have h2 := List.mem_enumFrom h
  have hlt : p.1 < l.length := by simpa using h2.2.1
  refine ⟨hlt, ?_⟩
  have := h2.2.2
  simpa using this

theorem enumFrom_filter_map_proj {α β : Type} (g : α → β) (q : α → Bool)
    (f : ℕ × α → α) (hg : ∀ p, g (f p) = g p.2) :
    ∀ (k : ℕ) (l : List α),
      ((List.enumFrom k l).filter (fun p => q p.2)).map (fun p => g (f p))
        = (l.filter q).map g := by
  intro k l
  induction l generalizing k with
  | nil => rfl
  | cons x xs ih =>
    rw [List.enumFrom_cons, List.filter_cons, List.filter_cons]
    dsimp only
    by_cases hq : q x = true
    · rw [if_pos hq, if_pos hq, List.map_cons, List.map_cons, hg, ih]
    · rw [if_neg hq, if_neg hq, ih]

theorem enumFrom_filter_map_id {α : Type} (q : α → Bool) (f : ℕ × α → α) :
    ∀ (k : ℕ) (l : List α),
      (∀ p ∈ List.enumFrom k l, q p.2 = true → f p = p.2) →
      ((List.enumFrom k l).filter (fun p => q p.2)).map f = l.filter q := by
  intro k l
  induction l generalizing k with
  | nil => intro _; rfl
  | cons x xs ih =>
    intro hf
    rw [List.enumFrom_cons, List.filter_cons, List.filter_cons]
    dsimp only
    by_cases hq : q x = true
    · rw [if_pos hq, if_pos hq, List.map_cons,
        hf (k, x) (List.mem_cons_self _ _) hq,
        ih (k + 1) (fun p hp hqp => hf p (List.mem_cons_of_mem _ hp) hqp)]
    · rw [if_neg hq, if_neg hq,
        ih (k + 1) (fun p hp hqp => hf p (List.mem_cons_of_mem _ hp) hqp)]

theorem finSat_name (mR : ℝ) (bcN : String) (db : Obody) (di : ℕ)
    (p : ℕ × Obody) : (finSat mR bcN db di p).name = p.2.name := by
  rw [finSat]
  dsimp only
  split <;> split <;> rfl

theorem finSat_fields (mR : ℝ) (bcN : String) (db : Obody) (di : ℕ)
    (p : ℕ × Obody) :
    (finSat mR bcN db di p).name = p.2.name ∧
    (finSat mR bcN db di p).radius = p.2.radius ∧
    (finSat mR bcN db di p).mass = p.2.mass ∧
    (finSat mR bcN db di p).satellites = p.2.satellites ∧
    (finSat mR bcN db di p).orbit.e = p.2.orbit.e ∧
    (finSat mR bcN db di p).orbit.pomega = p.2.orbit.pomega ∧
    (finSat mR bcN db di p).orbit.m0 = p.2.orbit.m0 ∧
    (finSat mR bcN db di p).orbit.n = p.2.orbit.n ∧
    (p.1 ≠ di → (finSat mR bcN db di p).orbit.a = p.2.orbit.a) := by
  rw [finSat]
  dsimp only
  by_cases h2 : p.1 = di
  · rw [if_pos h2]
    split <;> exact ⟨rfl, rfl, rfl, rfl, rfl, rfl, rfl, rfl, fun h => absurd h2 h⟩
  · rw [if_neg h2]
    split <;> exact ⟨rfl, rfl, rfl, rfl, rfl, rfl, rfl, rfl, fun _ => rfl⟩

theorem sorted_sortSats (sats : List Obody) : List.Sorted leA (sortSats sats) :=
  List.sorted_insertionSort leA sats

theorem perm_sortSats (sats : List Obody) : List.Perm (sortSats sats) sats :=
  List.perm_insertionSort leA sats

theorem sorted_updSats (c : Obody) (sats : List Obody) :
    List.Sorted leA (updSats c sats) := by
  rw [updSats]
  apply List.pairwise_map.mpr
  exact (sorted_sortSats sats).imp (fun h => h)


theorem dom_mem_updSats (c : Obody) (sats : List Obody) (di : ℕ) (db : Obody)
    (hd : domOf c sats = some (di, db)) : db ∈ updSats c sats := by
  obtain ⟨hlt, hget⟩ := enum_mem_get _ _ (domOf_spec c sats (di, db) hd).2.2
  rw [show ((di, db).2 : Obody) = db from rfl] at hget
  rw [hget]
  exact List.get_mem _ _ _

theorem dom_pos_fields (c : Obody) (sats : List Obody) (di : ℕ) (db : Obody)
    (hm : 0 < c.mass) (hms : ∀ b ∈ sats, 0 < b.mass)
    (hd : domOf c sats = some (di, db)) :
    0 < db.mass ∧ 0 < db.orbit.a ∧ 0 < db.soi := by
  have hmem : db ∈ updSats c sats := dom_mem_updSats c sats di db hd
  obtain ⟨b0, hb0, hbeq⟩ := List.mem_map.mp hmem
  have hb0s : b0 ∈ sats := (perm_sortSats sats).mem_iff.mp hb0
  have hbm : 0 < b0.mass := hms b0 hb0s
  have hdbmass : db.mass = b0.mass := by rw [← hbeq]; rfl
  have hdborbit : db.orbit = b0.orbit := by rw [← hbeq]; rfl
  have hdbsoi : db.soi = b0.orbit.a * (b0.mass / c.mass) ^ (0.4:ℝ) := by
    rw [← hbeq]; rfl
  have hoff : 0 < offsetR c db := by
    have hspec := domOf_spec c sats (di, db) hd
    have := hspec.2.1
    rw [hspec.1] at this
    exact this
  have hmpos : 0 < db.mass := hdbmass ▸ hbm
  have hden : 0 < 1 + c.mass / db.mass := by
    have : 0 < c.mass / db.mass := div_pos hm hmpos
    linarith
  have ha : 0 < db.orbit.a := by
    rw [offsetR] at hoff
    by_contra hna
    push_neg at hna
    have hnp : db.orbit.a / (1 + c.mass / db.mass) ≤ 0 :=
      div_nonpos_of_nonpos_of_nonneg hna (le_of_lt hden)
    linarith
  refine ⟨hmpos, ha, ?_⟩
  rw [hdbsoi]
  apply mul_pos
  · have : b0.orbit.a = db.orbit.a := by rw [hdborbit]
    rw [this]
    exact ha
  · exact Real.rpow_pos_of_pos (div_pos (hdbmass ▸ hmpos) hm) _

theorem dom_not_inner (c : Obody) (sats : List Obody) (di : ℕ) (db : Obody)
    (hm : 0 < c.mass) (hms : ∀ b ∈ sats, 0 < b.mass)
    (hd : domOf c sats = some (di, db)) : innerB db db = false := by
  obtain ⟨_, _, hsoi⟩ := dom_pos_fields c sats di db hm hms hd
  rw [innerB]
  apply decide_eq_false
  intro hlt
  linarith

theorem finSat_inner_id (c : Obody) (sats : List Obody) (di : ℕ) (db : Obody)
    (hm : 0 < c.mass) (hms : ∀ b ∈ sats, 0 < b.mass)
    (hd : domOf c sats = some (di, db)) :
    ∀ p ∈ (updSats c sats).enum, innerB db p.2 = true →
      finSat (maxROf c sats) (bcNameOf c db) db di p = p.2 := by
  intro p hp hq
  have hne : p.1 ≠ di := by
    intro hdi
    obtain ⟨hlt, hget⟩ := enum_mem_get _ p hp
    obtain ⟨hlt2, hget2⟩ :=
      enum_mem_get _ (di, db) (domOf_spec c sats (di, db) hd).2.2
    have hdb2 : db = (updSats c sats).get ⟨di, hlt2⟩ := hget2
    have hpdb : p.2 = db := by
      rw [hget, hdb2]
      congr 1
      exact Fin.ext hdi
    rw [hpdb, dom_not_inner c sats di db hm hms hd] at hq
    exact absurd hq (by simp)
  rw [finSat]
  dsimp only
  rw [if_pos hq, if_neg hne]

theorem innerFinal_eq_filter (c : Obody) (sats : List Obody) (di : ℕ)
    (db : Obody) (hm : 0 < c.mass) (hms : ∀ b ∈ sats, 0 < b.mass)
    (hd : domOf c sats = some (di, db)) :
    innerFinal c sats di db = (updSats c sats).filter (fun b => innerB db b) := by
  rw [innerFinal]
  exact enumFrom_filter_map_id _ _ 0 (updSats c sats)
    (finSat_inner_id c sats di db hm hms hd)

theorem sorted_innerFinal (c : Obody) (sats : List Obody) (di : ℕ) (db : Obody)
    (hm : 0 < c.mass) (hms : ∀ b ∈ sats, 0 < b.mass)
    (hd : domOf c sats = some (di, db)) :
    List.Sorted leA (innerFinal c sats di db) := by
  rw [innerFinal_eq_filter c sats di db hm hms hd]
  exact List.Pairwise.filter _ (sorted_updSats c sats)

theorem innerFinal_names (c : Obody) (sats : List Obody) (di : ℕ) (db : Obody) :
    (innerFinal c sats di db).map (fun b => b.name)
      = ((updSats c sats).filter (fun b => innerB db b)).map (fun b => b.name) := by
  rw [innerFinal, List.map_map]
  have h := enumFrom_filter_map_proj (fun b => b.name) (fun b => innerB db b)
    (finSat (maxROf c sats) (bcNameOf c db) db di)
    (finSat_name (maxROf c sats) (bcNameOf c db) db di) 0 (updSats c sats)
  simpa [Function.comp] using h

theorem outerFinal_names (c : Obody) (sats : List Obody) (di : ℕ) (db : Obody) :
    (outerFinal c sats di db).map (fun b => b.name)
      = ((updSats c sats).filter (fun b => ! innerB db b)).map (fun b => b.name) := by
  rw [outerFinal, List.map_map]
  have h := enumFrom_filter_map_proj (fun b => b.name) (fun b => ! innerB db b)
    (finSat (maxROf c sats) (bcNameOf c db) db di)
    (finSat_name (maxROf c sats) (bcNameOf c db) db di) 0 (updSats c sats)
  simpa [Function.comp] using h

theorem updSats_parent (c : Obody) (sats : List Obody) :
    ∀ b ∈ updSats c sats, b.parent = some c.name := by
  intro b hb
  obtain ⟨b0, _, hbeq⟩ := List.mem_map.mp hb
  rw [← hbeq]
  rfl

theorem updSats_soi (c : Obody) (sats : List Obody) :
    ∀ b ∈ updSats c sats,
      b.soi = b.orbit.a * (b.mass / c.mass) ^ (0.4:ℝ) := by
  intro b hb
  obtain ⟨b0, _, hbeq⟩ := List.mem_map.mp hb
  rw [← hbeq]
  rfl


/-- Reduction of `NewSystem` on the no-barycenter branch. -/
theorem newSystem_noBary_eq (c : Obody) (sats : List Obody)
    (hc : c.satellites = none) (hlt : maxROf c sats < 0.5 * c.radius) :
    NewSystem c sats = .ok ⟨noBaryCentral c sats, updSats c sats, none⟩ := by
  simp only [NewSystem, hc]
  rw [if_pos hlt]

/-- Reduction of `NewSystem` on the barycenter branch. -/
theorem newSystem_bary_eq (c : Obody) (sats : List Obody) (di : ℕ) (db : Obody)
    (hc : c.satellites = none) (hd : domOf c sats = some (di, db))
    (hge : ¬ maxROf c sats < 0.5 * c.radius) :
    NewSystem c sats = .ok ⟨centralFinalBary c sats di db, finSats c sats di db,
      some (bcOf c sats di db)⟩ := by
  simp only [NewSystem, hc, hd]
  rw [if_neg hge]

/-! ### Concrete fixtures used by witnesses and counterexamples -/

/-- Central body: radius 1, mass 1, fresh (nil satellites). -/
def sunA : Obody := ⟨"Sun", ⟨0, 0, 0, 0, 0⟩, 1, 1, 0, none, none⟩

/-- Central body with a larger radius (no-barycenter example). -/
def sunW : Obody := ⟨"Sun", ⟨0, 0, 0, 0, 0⟩, 2, 1, 0, none, none⟩

/-- Central body with radius `0` (degenerate threshold). -/
def sunZ : Obody := ⟨"Sun", ⟨0, 0, 0, 0, 0⟩, 0, 1, 0, none, none⟩

/-- Central body whose satellites field is already populated. -/
def sunSet : Obody := ⟨"Sun", ⟨0, 0, 0, 0, 0⟩, 1, 1, 0, none, some []⟩

/-- Satellite of unit mass at `a = 1`. -/
def moonA : Obody := ⟨"Moon", ⟨1, 0, 0, 0, 0⟩, 0, 1, 0, none, none⟩

/-- The unit-mass satellite after the first `NewSystem` loop. -/
def moonA2 : Obody :=
  ⟨"Moon", ⟨1, 0, 0, 0, 0⟩, 0, 1, 1 * ((1:ℝ) / 1) ^ (0.4:ℝ), some "Sun", none⟩

/-- Heavy satellite (mass 32) at `a = 1`. -/
def moonH : Obody := ⟨"Moon", ⟨1, 0, 0, 0, 0⟩, 0, 32, 0, none, none⟩

/-- The heavy satellite after the first `NewSystem` loop. -/
def moonH2 : Obody :=
  ⟨"Moon", ⟨1, 0, 0, 0, 0⟩, 0, 32, 1 * ((32:ℝ) / 1) ^ (0.4:ℝ), some "Sun", none⟩

/-- Satellite with negative semi-major axis. -/
def satN : Obody := ⟨"P", ⟨-1, 0, 0, 0, 0⟩, 0, 1, 0, none, none⟩

theorem rpow32 : ((32:ℝ) / 1) ^ (0.4:ℝ) = 4 := by
  have h1 : ((32:ℝ) / 1) = 32 := by norm_num
  have h5 : (32:ℝ) = (2:ℝ) ^ (5:ℕ) := by norm_num
  have h04 : (0.4:ℝ) = 2 / 5 := by norm_num
  rw [h1, h5, h04, ← Real.rpow_natCast (2:ℝ) 5,
    ← Real.rpow_mul (by norm_num : (0:ℝ) ≤ 2)]
  norm_num

theorem rpow11 : ((1:ℝ) / 1) ^ (0.4:ℝ) = 1 := by
  norm_num

theorem updSats_A : updSats sunA [moonA] = [moonA2] := rfl

theorem updSats_W : updSats sunW [moonA] = [moonA2] := rfl

theorem updSats_H : updSats sunA [moonH] = [moonH2] := rfl

theorem offsetR_A : offsetR sunA moonA2 = 1 / 2 := by
  rw [offsetR]
  norm_num [sunA, moonA2]

theorem offsetR_W : offsetR sunW moonA2 = 1 / 2 := by
  rw [offsetR]
  norm_num [sunW, moonA2]

theorem offsetR_H : offsetR sunA moonH2 = 32 / 33 := by
  rw [offsetR]
  norm_num [sunA, moonH2]

theorem domFold_A : domFold sunA [moonA2] = (1 / 2, some (0, moonA2)) := by
  rw [domFold]
  show List.foldl (domStep sunA) (0, none) [(0, moonA2)] = _
  rw [List.foldl_cons, List.foldl_nil, domStep, if_pos]
  · rw [offsetR_A]
  · show (0:ℝ) < offsetR sunA moonA2
    rw [offsetR_A]
    norm_num

theorem domFold_W : domFold sunW [moonA2] = (1 / 2, some (0, moonA2)) := by
  rw [domFold]
  show List.foldl (domStep sunW) (0, none) [(0, moonA2)] = _
  rw [List.foldl_cons, List.foldl_nil, domStep, if_pos]
  · rw [offsetR_W]
  · show (0:ℝ) < offsetR sunW moonA2
    rw [offsetR_W]
    norm_num

theorem domFold_H : domFold sunA [moonH2] = (32 / 33, some (0, moonH2)) := by
  rw [domFold]
  show List.foldl (domStep sunA) (0, none) [(0, moonH2)] = _
  rw [List.foldl_cons, List.foldl_nil, domStep, if_pos]
  · rw [offsetR_H]
  · show (0:ℝ) < offsetR sunA moonH2
    rw [offsetR_H]
    norm_num

theorem domOf_A : domOf sunA [moonA] = some (0, moonA2) := by
  rw [domOf, updSats_A, domFold_A]

theorem maxROf_A : maxROf sunA [moonA] = 1 / 2 := by
  rw [maxROf, updSats_A, domFold_A]

theorem domOf_H : domOf sunA [moonH] = some (0, moonH2) := by
  rw [domOf, updSats_H, domFold_H]

theorem maxROf_H : maxROf sunA [moonH] = 32 / 33 := by
  rw [maxROf, updSats_H, domFold_H]

theorem maxROf_W : maxROf sunW [moonA] = 1 / 2 := by
  rw [maxROf, updSats_W, domFold_W]

theorem innerB_AA : innerB moonA2 moonA2 = false := by
  rw [innerB]
  apply decide_eq_false
  show ¬ ((1:ℝ) < 1 - 1 * ((1:ℝ) / 1) ^ (0.4:ℝ))
  rw [rpow11]
  norm_num

theorem innerB_HH : innerB moonH2 moonH2 = false := by
  rw [innerB]
  apply decide_eq_false
  show ¬ ((1:ℝ) < 1 - 1 * ((32:ℝ) / 1) ^ (0.4:ℝ))
  rw [rpow32]
  norm_num


theorem bcName_A : bcNameOf sunA moonA2 = "Sun-Moon Barycenter" := rfl

theorem bcName_H : bcNameOf sunA moonH2 = "Sun-Moon Barycenter" := rfl

/-- Final central body for the `sunA`/`moonA` barycenter build. -/
def cA : Obody :=
  ⟨"Sun", ⟨1 / 2, 0, 0, 0 + Real.pi, 0⟩, 1, 1,
    1 - 1 * ((1:ℝ) / 1) ^ (0.4:ℝ), none, some []⟩

/-- Final satellite for the `sunA`/`moonA` barycenter build. -/
def mA : Obody :=
  ⟨"Moon", ⟨1 - 1 / 2, 0, 0, 0, 0⟩, 0, 1, 1 * ((1:ℝ) / 1) ^ (0.4:ℝ),
    some "Sun-Moon Barycenter", none⟩

/-- Barycenter node for the `sunA`/`moonA` build. -/
def bA : Obody :=
  ⟨"Sun-Moon Barycenter", ⟨0, 0, 0, 0, 0⟩, 1 / 2, 1 + 1, -1, none,
    some ["Sun", "Moon"]⟩

/-- Final central body for the `sunA`/`moonH` barycenter build. -/
def cH : Obody :=
  ⟨"Sun", ⟨32 / 33, 0, 0, 0 + Real.pi, 0⟩, 1, 1,
    1 - 1 * ((32:ℝ) / 1) ^ (0.4:ℝ), none, some []⟩

/-- Final satellite for the `sunA`/`moonH` barycenter build. -/
def mH : Obody :=
  ⟨"Moon", ⟨1 - 32 / 33, 0, 0, 0, 0⟩, 0, 32, 1 * ((32:ℝ) / 1) ^ (0.4:ℝ),
    some "Sun-Moon Barycenter", none⟩

/-- Barycenter node for the `sunA`/`moonH` build. -/
def bH : Obody :=
  ⟨"Sun-Moon Barycenter", ⟨0, 0, 0, 0, 0⟩, 32 / 33, 1 + 32, -1, none,
    some ["Sun", "Moon"]⟩

theorem finSat_A :
    finSat (maxROf sunA [moonA]) (bcNameOf sunA moonA2) moonA2 0 (0, moonA2)
      = mA := by
  rw [finSat]
  simp only [innerB_AA, Bool.false_eq_true, if_false, if_pos rfl]
  rw [maxROf_A]
  rfl

theorem finSat_H :
    finSat (maxROf sunA [moonH]) (bcNameOf sunA moonH2) moonH2 0 (0, moonH2)
      = mH := by
  rw [finSat]
  simp only [innerB_HH, Bool.false_eq_true, if_false, if_pos rfl]
  rw [maxROf_H]
  rfl

theorem innerFinal_A : innerFinal sunA [moonA] 0 moonA2 = [] := by
  rw [innerFinal, updSats_A]
  rw [show ([moonA2]).enum = [(0, moonA2)] from rfl]
  rw [List.filter_cons]
  rw [if_neg (by simp [innerB_AA])]
  rfl

theorem innerFinal_H : innerFinal sunA [moonH] 0 moonH2 = [] := by
  rw [innerFinal, updSats_H]
  rw [show ([moonH2]).enum = [(0, moonH2)] from rfl]
  rw [List.filter_cons]
  rw [if_neg (by simp [innerB_HH])]
  rfl

theorem outerFinal_A : outerFinal sunA [moonA] 0 moonA2 = [mA] := by
  rw [outerFinal, updSats_A]
  rw [show ([moonA2]).enum = [(0, moonA2)] from rfl]
  rw [List.filter_cons]
  rw [if_pos (by simp [innerB_AA])]
  rw [List.filter_nil, List.map_cons, List.map_nil, finSat_A]

theorem outerFinal_H : outerFinal sunA [moonH] 0 moonH2 = [mH] := by
  rw [outerFinal, updSats_H]
  rw [show ([moonH2]).enum = [(0, moonH2)] from rfl]
  rw [List.filter_cons]
  rw [if_pos (by simp [innerB_HH])]
  rw [List.filter_nil, List.map_cons, List.map_nil, finSat_H]

theorem finSats_A : finSats sunA [moonA] 0 moonA2 = [mA] := by
  rw [finSats, updSats_A]
  rw [show ([moonA2]).enum = [(0, moonA2)] from rfl]
  rw [List.map_cons, List.map_nil, finSat_A]

theorem finSats_H : finSats sunA [moonH] 0 moonH2 = [mH] := by
  rw [finSats, updSats_H]
  rw [show ([moonH2]).enum = [(0, moonH2)] from rfl]
  rw [List.map_cons, List.map_nil, finSat_H]

theorem centralFinalBary_A : centralFinalBary sunA [moonA] 0 moonA2 = cA := by
  rw [centralFinalBary, innerFinal_A, maxROf_A]
  rfl

theorem centralFinalBary_H : centralFinalBary sunA [moonH] 0 moonH2 = cH := by
  rw [centralFinalBary, innerFinal_H, maxROf_H]
  rfl

theorem bcOf_A : bcOf sunA [moonA] 0 moonA2 = bA := by
  rw [bcOf, outerFinal_A, maxROf_A]
  rfl

theorem bcOf_H : bcOf sunA [moonH] 0 moonH2 = bH := by
  rw [bcOf, outerFinal_H, maxROf_H]
  rfl

theorem NS_A : NewSystem sunA [moonA] = .ok ⟨cA, [mA], some bA⟩ := by
  rw [newSystem_bary_eq sunA [moonA] 0 moonA2 rfl domOf_A
    (by rw [maxROf_A]; norm_num [sunA])]
  rw [centralFinalBary_A, finSats_A, bcOf_A]

theorem NS_H : NewSystem sunA [moonH] = .ok ⟨cH, [mH], some bH⟩ := by
  rw [newSystem_bary_eq sunA [moonH] 0 moonH2 rfl domOf_H
    (by rw [maxROf_H]; norm_num [sunA])]
  rw [centralFinalBary_H, finSats_H, bcOf_H]

theorem NS_W : NewSystem sunW [moonA]
    = .ok ⟨noBaryCentral sunW [moonA], updSats sunW [moonA], none⟩ :=
  newSystem_noBary_eq sunW [moonA] rfl (by rw [maxROf_W]; norm_num [sunW])

theorem NS_set : NewSystem sunSet [] = .error "Satellites already set" := rfl

theorem NS_empty : NewSystem sunA [] = .ok ⟨noBaryCentral sunA [], [], none⟩ := by
  have h := newSystem_noBary_eq sunA [] rfl
    (by rw [show maxROf sunA [] = 0 from rfl]; norm_num [sunA])
  rw [h]
  rfl

/-- The negative-axis satellite after the first `NewSystem` loop. -/
def satN2 : Obody :=
  ⟨"P", ⟨-1, 0, 0, 0, 0⟩, 0, 1, -1 * ((1:ℝ) / 1) ^ (0.4:ℝ), some "Sun", none⟩

theorem updSats_Z : updSats sunZ [satN] = [satN2] := rfl

theorem offsetR_Z : offsetR sunZ satN2 = -(1 / 2) := by
  rw [offsetR]
  norm_num [sunZ, satN2]

theorem domFold_Z : domFold sunZ [satN2] = (0, none) := by
  rw [domFold]
  show List.foldl (domStep sunZ) (0, none) [(0, satN2)] = _
  rw [List.foldl_cons, List.foldl_nil, domStep,
    if_neg (show ¬ ((0:ℝ) < offsetR sunZ satN2) from by rw [offsetR_Z]; norm_num)]

theorem domOf_Z : domOf sunZ [satN] = none := by
  rw [domOf, updSats_Z, domFold_Z]

theorem maxROf_Z : maxROf sunZ [satN] = 0 := by
  rw [maxROf, updSats_Z, domFold_Z]

theorem NS_Z : NewSystem sunZ [satN]
    = .error "invalid memory address or nil pointer dereference" := by
  simp only [NewSystem, show sunZ.satellites = none from rfl, domOf_Z]
  rw [if_neg (by rw [maxROf_Z]; norm_num [sunZ])]

/-- Satellite with zero semi-major axis. -/
def satO : Obody := ⟨"P", ⟨0, 0, 0, 0, 0⟩, 0, 1, 0, none, none⟩

/-- The zero-axis satellite after the first `NewSystem` loop. -/
def satO2 : Obody :=
  ⟨"P", ⟨0, 0, 0, 0, 0⟩, 0, 1, 0 * ((1:ℝ) / 1) ^ (0.4:ℝ), some "Sun", none⟩

theorem updSats_O : updSats sunZ [satO] = [satO2] := rfl

theorem offsetR_O : offsetR sunZ satO2 = 0 := by
  rw [offsetR]
  norm_num [sunZ, satO2]

theorem domFold_O : domFold sunZ [satO2] = (0, none) := by
  rw [domFold]
  show List.foldl (domStep sunZ) (0, none) [(0, satO2)] = _
  rw [List.foldl_cons, List.foldl_nil, domStep,
    if_neg (show ¬ ((0:ℝ) < offsetR sunZ satO2) from by rw [offsetR_O]; norm_num)]

theorem domOf_O : domOf sunZ [satO] = none := by
  rw [domOf, updSats_O, domFold_O]

theorem maxROf_O : maxROf sunZ [satO] = 0 := by
  rw [maxROf, updSats_O, domFold_O]

theorem NS_O : NewSystem sunZ [satO]
    = .error "invalid memory address or nil pointer dereference" := by
  simp only [NewSystem, show sunZ.satellites = none from rfl, domOf_O]
  rw [if_neg (by rw [maxROf_O]; norm_num [sunZ])]


/-! ### Claim C3 -/

/-- Conclusion of claim C3 (no-barycenter case): build succeeds with the
central body as root, `soi = -1`, the sorted satellite list attached by
name, and every satellite carrying the provisional parent and the SOI
formula `a · (mass/centralMass)^0.4`. -/
def C3Shape (c : Obody) (sats : List Obody) : Prop :=
  NewSystem c sats = .ok ⟨noBaryCentral c sats, updSats c sats, none⟩ ∧
  (noBaryCentral c sats).soi = -1 ∧
  (noBaryCentral c sats).satellites
    = some ((updSats c sats).map (fun b => b.name)) ∧
  List.Perm (sortSats sats) sats ∧
  List.Sorted leA (sortSats sats) ∧
  ∀ b ∈ updSats c sats,
    b.parent = some c.name ∧
    b.soi = b.orbit.a * (b.mass / c.mass) ^ (0.4:ℝ)

/-- C3 (amended): for a central body with positive radius, a fresh
satellites field and a non-empty satellite list, if every satellite's
barycenter offset `r = a/(1 + M/m)` (hence their maximum) is strictly
below `0.5 · radius`, `NewSystem` keeps the central body as root exactly
as the claim states.  (The positive-radius hypothesis is forced by the
counterexample: the tracked maximum starts at `0`, so with `radius ≤ 0`
and only negative offsets the code takes the barycenter branch and
crashes instead.) -/
theorem c3_noBary_amended (c : Obody) (sats : List Obody)
    (hc : c.satellites = none) (hne : sats ≠ []) (hr : 0 < c.radius)
    (hmax : ∀ b ∈ updSats c sats, offsetR c b < 0.5 * c.radius) :
    C3Shape c sats := by
  have hlt : maxROf c sats < 0.5 * c.radius :=
    maxROf_lt_of_forall c sats _ (by linarith) hmax
  exact ⟨newSystem_noBary_eq c sats hc hlt, rfl, rfl, perm_sortSats sats,
    sorted_sortSats sats,
    fun b hb => ⟨updSats_parent c sats b hb, updSats_soi c sats b hb⟩⟩

theorem hmax_W :
    ∀ b ∈ updSats sunW [moonA], offsetR sunW b < 0.5 * sunW.radius := by
  intro b hb
  rw [updSats_W] at hb
  simp only [List.mem_singleton] at hb
  subst hb
  rw [offsetR_W]
  norm_num [sunW]

/-- C3 witness: a concrete no-barycenter build (radius 2, one unit-mass
satellite at `a = 1`, offset `1/2 < 1`). -/
theorem c3_witness :
    sunW.satellites = none ∧ [moonA] ≠ ([] : List Obody) ∧ 0 < sunW.radius ∧
    (∀ b ∈ updSats sunW [moonA], offsetR sunW b < 0.5 * sunW.radius) ∧
    C3Shape sunW [moonA] :=
  ⟨rfl, by simp, by norm_num [sunW], hmax_W,
    c3_noBary_amended sunW [moonA] rfl (by simp) (by norm_num [sunW]) hmax_W⟩

/-- C3 counterexample: the central body has radius `0` and the only
satellite has `a = -1`, so every barycenter offset (hence the maximum
over the satellites, `-1/2`) is strictly below `0.5 · radius = 0` — yet
`NewSystem` does not return the central body as root: it takes the
barycenter branch and dies on the nil `baryBody` dereference. -/
theorem c3_counterexample :
    (∀ b ∈ updSats sunZ [satN], offsetR sunZ b < 0.5 * sunZ.radius) ∧
    NewSystem sunZ [satN]
      = .error "invalid memory address or nil pointer dereference" := by
  constructor
  · intro b hb
    rw [updSats_Z] at hb
    simp only [List.mem_singleton] at hb
    subst hb
    rw [offsetR_Z]
    norm_num [sunZ]
  · exact NS_Z

/-! ### Claim C2 -/

/-- Conclusion of claim C2 (barycenter case), conjunct by conjunct:
inner satellites (pre-construction `a < domA - domSoi`) stay on the
central body, the rest plus the central body (first) form the
barycenter's list; the barycenter takes the central body's original
orbit, radius `maxR`, summed mass and `soi = -1`; the central body gets
`soi = domA - domSoi` and the dominant's original orbit with `a = maxR`
and `m0 + π`; the dominant satellite's `a` drops by `maxR`. -/
def C2Shape (c : Obody) (sats : List Obody) (di : ℕ) (db : Obody) : Prop :=
  NewSystem c sats = .ok ⟨centralFinalBary c sats di db, finSats c sats di db,
    some (bcOf c sats di db)⟩ ∧
  (centralFinalBary c sats di db).satellites
    = some (((updSats c sats).filter (fun b => innerB db b)).map
        (fun b => b.name)) ∧
  (bcOf c sats di db).satellites
    = some (c.name :: ((updSats c sats).filter (fun b => ! innerB db b)).map
        (fun b => b.name)) ∧
  (bcOf c sats di db).orbit = c.orbit ∧
  (bcOf c sats di db).radius = maxROf c sats ∧
  (bcOf c sats di db).mass = c.mass + db.mass ∧
  (bcOf c sats di db).soi = -1 ∧
  (centralFinalBary c sats di db).soi = db.orbit.a - db.soi ∧
  (centralFinalBary c sats di db).orbit
    = ⟨maxROf c sats, db.orbit.e, db.orbit.pomega, db.orbit.m0 + Real.pi,
        db.orbit.n⟩ ∧
  ∀ h1 : di < (finSats c sats di db).length,
    ∀ h2 : di < (updSats c sats).length,
      ((finSats c sats di db).get ⟨di, h1⟩).orbit.a
        = ((updSats c sats).get ⟨di, h2⟩).orbit.a - maxROf c sats

/-- C2 (amended): whenever a dominant satellite was actually tracked
(`baryBody ≠ nil`, i.e. some satellite had a strictly positive offset)
and the tracked maximum offset is not below `0.5 · radius`, `NewSystem`
builds the barycenter exactly as the claim describes.  The tracking
hypothesis is forced by the counterexample: the claim's bare antecedent
`maxR ≥ 0.5 · radius` is also satisfiable with no tracked dominant, and
the code then panics instead of returning the described root. -/
theorem c2_bary (c : Obody) (sats : List Obody) (di : ℕ) (db : Obody)
    (hc : c.satellites = none) (hd : domOf c sats = some (di, db))
    (hge : ¬ maxROf c sats < 0.5 * c.radius) : C2Shape c sats di db := by
  refine ⟨newSystem_bary_eq c sats di db hc hd hge, ?_, ?_, rfl, rfl, rfl, rfl,
    rfl, rfl, ?_⟩
  · show some ((innerFinal c sats di db).map (fun b => b.name)) = _
    rw [innerFinal_names]
  · show some (c.name :: (outerFinal c sats di db).map (fun b => b.name)) = _
    rw [outerFinal_names]
  · intro h1 h2
    have hget : (finSats c sats di db).get ⟨di, h1⟩
        = finSat (maxROf c sats) (bcNameOf c db) db di
            (di, (updSats c sats).get ⟨di, h2⟩) := by
      simp only [finSats, List.get_eq_getElem, List.getElem_map,
        List.getElem_enum]
    rw [hget, finSat]
    dsimp only
    rw [if_pos rfl]
    rw [List.get_eq_getElem]
    split <;> rfl

/-- C2 witness: concrete barycenter build with two unit masses at
`a = 1` and central radius `1` (`maxR = 1/2 ≥ 0.5`). -/
theorem c2_witness :
    sunA.satellites = none ∧ domOf sunA [moonA] = some (0, moonA2) ∧
    ¬ maxROf sunA [moonA] < 0.5 * sunA.radius ∧
    C2Shape sunA [moonA] 0 moonA2 :=
  ⟨rfl, domOf_A, by rw [maxROf_A]; norm_num [sunA],
    c2_bary sunA [moonA] 0 moonA2 rfl domOf_A
      (by rw [maxROf_A]; norm_num [sunA])⟩

/-- C2 counterexample: central body of radius `0` with a single satellite
at `a = 0`.  The satellite's barycenter offset (hence the maximum offset
over the satellites) is `0 ≥ 0.5 · radius`, so the claim's antecedent
holds — but the strict-`>` fold from `0` never tracks a dominant
satellite, and instead of returning the described barycenter root the
builder dies on the nil `baryBody` dereference. -/
theorem c2_counterexample :
    updSat sunZ satO = satO2 ∧
    ¬ offsetR sunZ satO2 < 0.5 * sunZ.radius ∧
    NewSystem sunZ [satO]
      = .error "invalid memory address or nil pointer dereference" :=
  ⟨rfl, by rw [offsetR_O]; norm_num [sunZ], NS_O⟩


/-! ### Claim C7 -/

/-- Conclusion of claim C7 as amended: the sorted lists actually
guaranteed by the builder — the satellite list attached to the central
body in the no-barycenter case, and the inner list attached to the
central body in the barycenter case.  (The barycenter's own list is NOT
sorted in general; see the counterexample.) -/
def C7Shape (c : Obody) (sats : List Obody) : Prop :=
  List.Sorted leA (updSats c sats) ∧
  (noBaryCentral c sats).satellites
    = some ((updSats c sats).map (fun b => b.name)) ∧
  ∀ di db, domOf c sats = some (di, db) →
    List.Sorted leA (innerFinal c sats di db) ∧
    (centralFinalBary c sats di db).satellites
      = some ((innerFinal c sats di db).map (fun b => b.name))

/-- C7 (amended): with positive masses, the central body's satellite
list is sorted ascending by (post-construction) `a` in both cases.  The
claim's further assertion that the barycenter's list is also sorted is
false. -/
theorem c7_sorted_amended (c : Obody) (sats : List Obody) (hm : 0 < c.mass)
    (hms : ∀ b ∈ sats, 0 < b.mass) : C7Shape c sats :=
  ⟨sorted_updSats c sats, rfl, fun di db hd =>
    ⟨sorted_innerFinal c sats di db hm hms hd, rfl⟩⟩

/-- C7 witness: the sorted-lists property at the concrete unit-mass
build. -/
theorem c7_witness :
    0 < sunA.mass ∧ (∀ b ∈ [moonA], 0 < b.mass) ∧ C7Shape sunA [moonA] :=
  ⟨by norm_num [sunA],
    by
      intro b hb
      simp only [List.mem_singleton] at hb
      subst hb
      norm_num [moonA],
    c7_sorted_amended sunA [moonA] (by norm_num [sunA])
      (by
        intro b hb
        simp only [List.mem_singleton] at hb
        subst hb
        norm_num [moonA])⟩

/-- C7 counterexample: with a satellite 32 times heavier than the
central body, the barycenter's satellite list is `[central, dominant]`
with post-construction semi-major axes `32/33` followed by `1/33` — not
sorted ascending by `a`. -/
theorem c7_counterexample :
    NewSystem sunA [moonH] = .ok ⟨cH, [mH], some bH⟩ ∧
    bH.satellites = some [cH.name, mH.name] ∧
    ¬ List.Sorted leA [cH, mH] := by
  refine ⟨NS_H, rfl, ?_⟩
  intro hs
  rw [List.sorted_cons] at hs
  have h := hs.1 mH (List.mem_singleton.mpr rfl)
  have h2 : (32:ℝ) / 33 ≤ 1 - 32 / 33 := h
  norm_num at h2

/-! ### Claim C8 -/

/-- Conclusion of claim C8 as amended: parent links and satellite lists
are mutually consistent for every satellite (inner satellites point at
the central body and appear in its list; outer satellites point at the
barycenter and appear in its list), but the central body's own `parent`
field is NOT re-pointed at the barycenter: it keeps its pre-call value
even though the central body heads the barycenter's satellite list. -/
def C8Shape (c : Obody) (sats : List Obody) : Prop :=
  (∀ b ∈ updSats c sats, b.parent = some c.name) ∧
  (noBaryCentral c sats).satellites
    = some ((updSats c sats).map (fun b => b.name)) ∧
  (noBaryCentral c sats).parent = c.parent ∧
  ∀ di db, domOf c sats = some (di, db) →
    (∀ p ∈ (updSats c sats).enum, innerB db p.2 = true →
      (finSat (maxROf c sats) (bcNameOf c db) db di p).parent
        = some c.name) ∧
    (∀ p ∈ (updSats c sats).enum, innerB db p.2 = false →
      (finSat (maxROf c sats) (bcNameOf c db) db di p).parent
        = some (bcNameOf c db)) ∧
    (centralFinalBary c sats di db).satellites
      = some ((innerFinal c sats di db).map (fun b => b.name)) ∧
    (bcOf c sats di db).satellites
      = some (c.name :: (outerFinal c sats di db).map (fun b => b.name)) ∧
    (bcOf c sats di db).name = bcNameOf c db ∧
    (centralFinalBary c sats di db).parent = c.parent

/-- C8 (amended): link consistency holds for all satellites, while the
central body's parent reference is left unchanged by the builder. -/
theorem c8_consistency_amended (c : Obody) (sats : List Obody) :
    C8Shape c sats := by
  refine ⟨updSats_parent c sats, rfl, rfl,
    fun di db hd => ⟨?_, ?_, rfl, rfl, rfl, rfl⟩⟩
  · intro p hp hq
    have hmem : p.2 ∈ updSats c sats := by
      obtain ⟨hlt, hget⟩ := enum_mem_get _ p hp
      rw [hget]
      exact List.get_mem _ _ _
    rw [finSat]
    dsimp only
    rw [if_pos hq]
    split <;> exact updSats_parent c sats p.2 hmem
  · intro p hp hq
    have hq2 : ¬ (innerB db p.2 = true) := by rw [hq]; simp
    rw [finSat]
    dsimp only
    rw [if_neg hq2]
    split <;> rfl

/-- C8 witness: the amended consistency statement at the concrete
unit-mass build. -/
theorem c8_witness : C8Shape sunA [moonA] :=
  c8_consistency_amended sunA [moonA]

/-- C8 counterexample: in the concrete barycenter build the central
body heads the barycenter's satellite list, yet its parent field still
holds its pre-call value (`none`), not the barycenter. -/
theorem c8_counterexample :
    NewSystem sunA [moonA] = .ok ⟨cA, [mA], some bA⟩ ∧
    bA.satellites = some [cA.name, mA.name] ∧
    cA.parent ≠ some bA.name := by
  refine ⟨NS_A, rfl, ?_⟩
  simp [cA, bA]

/-! ### Claim C9 -/

/-- C9 (amended): the barycenter's name is
`centralBody.name ++ "-" ++ dominant.name ++ " Barycenter"` — with a bare
hyphen, not the claimed `" - "` separator. -/
theorem c9_name_amended (c : Obody) (sats : List Obody) (di : ℕ) (db : Obody)
    (hc : c.satellites = none) (hd : domOf c sats = some (di, db))
    (hge : ¬ maxROf c sats < 0.5 * c.radius) :
    NewSystem c sats = .ok ⟨centralFinalBary c sats di db,
      finSats c sats di db, some (bcOf c sats di db)⟩ ∧
    (bcOf c sats di db).name = c.name ++ "-" ++ db.name ++ " Barycenter" :=
  ⟨newSystem_bary_eq c sats di db hc hd hge, rfl⟩

/-- C9 witness: the name format at the concrete unit-mass build. -/
theorem c9_witness :
    sunA.satellites = none ∧ domOf sunA [moonA] = some (0, moonA2) ∧
    ¬ maxROf sunA [moonA] < 0.5 * sunA.radius ∧
    (NewSystem sunA [moonA] = .ok ⟨centralFinalBary sunA [moonA] 0 moonA2,
        finSats sunA [moonA] 0 moonA2, some (bcOf sunA [moonA] 0 moonA2)⟩ ∧
      (bcOf sunA [moonA] 0 moonA2).name
        = sunA.name ++ "-" ++ moonA2.name ++ " Barycenter") :=
  ⟨rfl, domOf_A, by rw [maxROf_A]; norm_num [sunA],
    c9_name_amended sunA [moonA] 0 moonA2 rfl domOf_A
      (by rw [maxROf_A]; norm_num [sunA])⟩

/-- C9 counterexample: the generated name is `"Sun-Moon Barycenter"`,
which does not match the claimed pattern `"Sun - Moon Barycenter"`
(space-hyphen-space). -/
theorem c9_counterexample :
    NewSystem sunA [moonA] = .ok ⟨cA, [mA], some bA⟩ ∧
    bA.name = "Sun-Moon Barycenter" ∧
    "Sun-Moon Barycenter" ≠ "Sun - Moon Barycenter" :=
  ⟨NS_A, rfl, by decide⟩

/-! ### Claim C6 -/

/-- C6 (amended): `NewSystem` panics when the central body's satellites
field is already populated; but with zero satellites it does NOT fail
when the central radius is positive (it silently returns the central
body as root with an empty list) — it aborts (nil `baryBody`
dereference) only when `0.5 · radius ≤ 0`. -/
theorem c6_failure_amended (c : Obody) (l : List String) :
    (∀ sats, c.satellites = some l →
      NewSystem c sats = .error "Satellites already set") ∧
    (c.satellites = none → 0 < c.radius →
      NewSystem c [] = .ok ⟨noBaryCentral c [], [], none⟩) ∧
    (c.satellites = none → c.radius ≤ 0 →
      NewSystem c []
        = .error "invalid memory address or nil pointer dereference") := by
  refine ⟨?_, ?_, ?_⟩
  · intro sats hcs
    simp only [NewSystem, hcs]
  · intro hc hr
    have h := newSystem_noBary_eq c [] hc
      (by rw [show maxROf c [] = 0 from rfl]; linarith)
    rw [h]
    rfl
  · intro hc hr
    simp only [NewSystem, hc]
    rw [if_neg (show ¬ (maxROf c [] < 0.5 * c.radius) from by
      rw [show maxROf c [] = 0 from rfl]
      exact not_lt.mpr (by linarith))]
    rfl

/-- C6 witness: the already-populated panic and the silent empty-list
return, both at concrete bodies. -/
theorem c6_witness :
    sunSet.satellites = some [] ∧
    NewSystem sunSet [] = .error "Satellites already set" ∧
    sunA.satellites = none ∧ 0 < sunA.radius ∧
    NewSystem sunA [] = .ok ⟨noBaryCentral sunA [], [], none⟩ :=
  ⟨rfl, (c6_failure_amended sunSet []).1 [] rfl, rfl, by norm_num [sunA],
    (c6_failure_amended sunA []).2.1 rfl (by norm_num [sunA])⟩

/-- C6 counterexample: calling the builder with fewer than one satellite
does NOT fail loudly — with a positive central radius it silently
returns the central body as root. -/
theorem c6_counterexample :
    sunA.satellites = none ∧
    NewSystem sunA [] = .ok ⟨noBaryCentral sunA [], [], none⟩ :=
  ⟨rfl, NS_empty⟩


/-! ### Claim C10 -/

/-- Conclusion of claim C10: positionally, every output satellite agrees
with the corresponding sorted input satellite on `name`, `radius`,
`mass`, its own satellite list, and the orbital elements `e`, `pomega`,
`m0`, `n`; the semi-major axis `a` is also unchanged in the
no-barycenter case, and in the barycenter case for every satellite other
than the dominant one. -/
def C10Shape (c : Obody) (sats : List Obody) (res : BuildResult) : Prop :=
  res.sats.length = (sortSats sats).length ∧
  ∀ i, ∀ h1 : i < res.sats.length, ∀ h2 : i < (sortSats sats).length,
    ((res.sats.get ⟨i, h1⟩).name = ((sortSats sats).get ⟨i, h2⟩).name ∧
      (res.sats.get ⟨i, h1⟩).radius = ((sortSats sats).get ⟨i, h2⟩).radius ∧
      (res.sats.get ⟨i, h1⟩).mass = ((sortSats sats).get ⟨i, h2⟩).mass ∧
      (res.sats.get ⟨i, h1⟩).satellites
        = ((sortSats sats).get ⟨i, h2⟩).satellites) ∧
    ((res.sats.get ⟨i, h1⟩).orbit.e = ((sortSats sats).get ⟨i, h2⟩).orbit.e ∧
      (res.sats.get ⟨i, h1⟩).orbit.pomega
        = ((sortSats sats).get ⟨i, h2⟩).orbit.pomega ∧
      (res.sats.get ⟨i, h1⟩).orbit.m0
        = ((sortSats sats).get ⟨i, h2⟩).orbit.m0 ∧
      (res.sats.get ⟨i, h1⟩).orbit.n
        = ((sortSats sats).get ⟨i, h2⟩).orbit.n) ∧
    (res.bary = none →
      (res.sats.get ⟨i, h1⟩).orbit.a
        = ((sortSats sats).get ⟨i, h2⟩).orbit.a) ∧
    ∀ di db, domOf c sats = some (di, db) → i ≠ di →
      (res.sats.get ⟨i, h1⟩).orbit.a = ((sortSats sats).get ⟨i, h2⟩).orbit.a

/-- C10: the builder writes only `parent` and `soi` on the satellites
(plus `a` on the dominant one in the barycenter case); all other
per-satellite fields and orbital elements are left unchanged. -/
theorem c10_frame (c : Obody) (sats : List Obody) (res : BuildResult)
    (h : NewSystem c sats = .ok res) : C10Shape c sats res := by
  rw [NewSystem] at h
  split at h
  · exact absurd h (by simp)
  · split at h
    · injection h with h2
      subst h2
      refine ⟨?_, ?_⟩
      · show (updSats c sats).length = (sortSats sats).length
        rw [updSats, List.length_map]
      · intro i h1 h2
        have hg : (updSats c sats).get ⟨i, h1⟩
            = updSat c ((sortSats sats).get ⟨i, h2⟩) := by
          simp only [updSats, List.get_eq_getElem, List.getElem_map]
        dsimp only
        rw [hg]
        exact ⟨⟨rfl, rfl, rfl, rfl⟩, ⟨rfl, rfl, rfl, rfl⟩, fun _ => rfl,
          fun di db hd hne => rfl⟩
    · cases hdo : domOf c sats with
      | none =>
        rw [hdo] at h
        exact absurd h (by simp)
      | some pair =>
        obtain ⟨di, db⟩ := pair
        rw [hdo] at h
        dsimp only at h
        injection h with h2
        subst h2
        refine ⟨?_, ?_⟩
        · show (finSats c sats di db).length = (sortSats sats).length
          rw [finSats, List.length_map, List.enum_length, updSats,
            List.length_map]
        · intro i h1 h2
          have hg : (finSats c sats di db).get ⟨i, h1⟩
              = finSat (maxROf c sats) (bcNameOf c db) db di
                  (i, updSat c ((sortSats sats).get ⟨i, h2⟩)) := by
            simp only [finSats, updSats, List.get_eq_getElem,
              List.getElem_map, List.getElem_enum]
          dsimp only
          rw [hg]
          obtain ⟨f1, f2, f3, f4, f5, f6, f7, f8, f9⟩ :=
            finSat_fields (maxROf c sats) (bcNameOf c db) db di
              (i, updSat c ((sortSats sats).get ⟨i, h2⟩))
          refine ⟨⟨f1, f2, f3, f4⟩, ⟨f5, f6, f7, f8⟩, ?_, ?_⟩
          · intro habs
            exact absurd habs (by simp)
          · intro di2 db2 hd2 hne
            rw [hdo] at hd2
            injection hd2 with hd3
            injection hd3 with hdi hdb
            exact f9 (fun hcon => hne (hcon.trans hdi))

/-- C10 witness: the frame property at the concrete no-barycenter
build. -/
theorem c10_witness :
    NewSystem sunW [moonA]
      = .ok ⟨noBaryCentral sunW [moonA], updSats sunW [moonA], none⟩ ∧
    C10Shape sunW [moonA]
      ⟨noBaryCentral sunW [moonA], updSats sunW [moonA], none⟩ :=
  ⟨NS_W, c10_frame sunW [moonA] _ NS_W⟩


end SpaceGame
